import Mathlib

/-!
Verification of the `aihero` repository: a shallow embedding in Lean 4 of the
chunking functions (`course/day2_chunking.py`, `project/day6_ingest.py`), the
interaction logging (`project/day6_logs.py`, `project/day5_evaluation.py`),
the evaluation metrics (`project/day5_evaluation.py`) and the query tool
(`project/query_tools.py`), together with theorems settling the frozen claims
about them.

Python strings are modelled as `List Char`, Python ints as `Int`/`Nat`,
Python floats as `ℚ` (no NaN arithmetic is exercised by any claim), raising
an exception as returning `Except.error`, and Python dicts as association
lists in insertion order (assignment replaces in place, new keys append).
-/

deriving instance DecidableEq for Except

namespace Aihero

/-! ### `range(0, n, step)` -/

/-- Python `range(0, n, step)` for `step ≥ 1`: the multiples of `step` below
`n`, in order.  `(n + step - 1) / step` is the number of such multiples. -/
def pyRange (n step : Nat) : List Nat :=
  List.range' 0 ((n + step - 1) / step) step

/-! ### `sliding_window` from `course/day2_chunking.py` (lines 10-33) -/

namespace Course

/-- One element of the result of `sliding_window` in
`course/day2_chunking.py`: the dict `{'start': i, 'chunk': seq[i:i+size]}`. -/
structure CourseChunk where
  start : Nat
  chunk : List Char
deriving DecidableEq, Repr

/-- The `for i in range(0, n, step)` loop of `sliding_window`
(`course/day2_chunking.py`), over the list of loop indices.  After appending
the chunk the loop breaks when `i + size >= n`. -/
def swLoop (seq : List Char) (size : Nat) : List Nat → List CourseChunk
  | [] => []
  | i :: rest =>
    let c : CourseChunk := ⟨i, (seq.drop i).take size⟩
    if seq.length ≤ i + size then [c]
    else c :: swLoop seq size rest

/-- `sliding_window` from `course/day2_chunking.py`: raises `ValueError`
when `size <= 0 or step <= 0`, otherwise collects `seq[i:i+size]` for
`i in range(0, len(seq), step)`, breaking once `i + size >= len(seq)`. -/
def sliding_window (seq : List Char) (size step : Int) :
    Except String (List CourseChunk) :=
  if size ≤ 0 ∨ step ≤ 0 then Except.error "size and step must be positive"
  else Except.ok (swLoop seq size.toNat (pyRange seq.length step.toNat))

end Course

/-! ### `sliding_window` from `project/day6_ingest.py` (lines 58-81) -/

namespace Ingest

/-- One element of the result of `sliding_window` in `project/day6_ingest.py`:
the dict `{'start': i, 'content': seq[i:i+size]}`. -/
structure IngestChunk where
  start : Nat
  content : List Char
deriving DecidableEq, Repr

/-- The loop of `sliding_window` in `project/day6_ingest.py`.  Identical to
the course version except that the `break` fires only when
`i + size > n` (strict). -/
def swLoop (seq : List Char) (size : Nat) : List Nat → List IngestChunk
  | [] => []
  | i :: rest =>
    let c : IngestChunk := ⟨i, (seq.drop i).take size⟩
    if seq.length < i + size then [c]
    else c :: swLoop seq size rest

/-- `sliding_window` from `project/day6_ingest.py`. -/
def sliding_window (seq : List Char) (size step : Int) :
    Except String (List IngestChunk) :=
  if size ≤ 0 ∨ step ≤ 0 then Except.error "size and step must be positive"
  else Except.ok (swLoop seq size.toNat (pyRange seq.length step.toNat))

end Ingest

/-- The chunk count asserted by the specification for a non-empty input:
`max(ceil((n - size) / step), 0) + 1`, with the ceiling division realized
as `(a + step - 1) / step` over `Int` floor division (valid for `step > 0`). -/
def claimedChunkCount (n size step : Int) : Int :=
  max (Int.ediv (n - size + step - 1) step) 0 + 1

/-- The start/text pair carried by a course chunk (key `'chunk'`). -/
def Course.CourseChunk.pair (c : Course.CourseChunk) : Nat × List Char :=
  (c.start, c.chunk)

/-- The start/text pair carried by an ingest chunk (key `'content'`). -/
def Ingest.IngestChunk.pair (c : Ingest.IngestChunk) : Nat × List Char :=
  (c.start, c.content)

/-- Entry `k` of the course loop run over `range' i0 m s` starts at
`i0 + k * s` and holds the substring of length `size` from there. -/
theorem swLoop_range'_getElem (seq : List Char) (size s : Nat) :
    ∀ m i0 k, k < (Course.swLoop seq size (List.range' i0 m s)).length →
      (Course.swLoop seq size (List.range' i0 m s))[k]? =
        some ⟨i0 + k * s, (seq.drop (i0 + k * s)).take size⟩ := by
  intro m
  induction m with
  | zero =>
    intro i0 k h
    simp [List.range', Course.swLoop] at h
  | succ m ih =>
    intro i0 k h
    rw [List.range'_succ] at h ⊢
    by_cases h1 : seq.length ≤ i0 + size
    · simp only [Course.swLoop, h1, if_pos] at h ⊢
      have hk : k = 0 := by simpa using Nat.lt_one_iff.mp h
      subst hk
      simp
    · simp only [Course.swLoop, h1, if_neg, not_false_iff, List.length_cons] at h ⊢
      match k with
      | 0 => simp
      | j + 1 =>
        have hj : j < (Course.swLoop seq size (List.range' (i0 + s) m s)).length := by
          omega
        have := ih (i0 + s) j hj
        simp only [List.getElem?_cons_succ, this]
        have harith : i0 + s + j * s = i0 + (j + 1) * s := by ring
        rw [harith]

/-- Number of entries produced by the course loop over `range' i0 m s`:
the loop breaks at the first index whose window reaches the end of the
string, unless the index list runs out first. -/
theorem swLoop_range'_length (seq : List Char) (size s : Nat) (hs : 0 < s) :
    ∀ m i0, (Course.swLoop seq size (List.range' i0 m s)).length
      = min m ((seq.length - size - i0 + s - 1) / s + 1) := by
  intro m
  induction m with
  | zero =>
    intro i0
    simp [List.range', Course.swLoop]
  | succ m ih =>
    intro i0
    rw [List.range'_succ]
    by_cases h1 : seq.length ≤ i0 + size
    · have ha : seq.length - size - i0 = 0 := by omega
      have hdiv : (s - 1) / s = 0 := Nat.div_eq_of_lt (by omega)
      simp only [Course.swLoop, h1, if_pos, List.length_singleton, ha,
        Nat.zero_add, hdiv]
      exact (Nat.min_eq_right (by omega)).symm
    · push_neg at h1
      have key : (seq.length - size - i0 + s - 1) / s + 1
          = ((seq.length - size - (i0 + s) + s - 1) / s + 1) + 1 := by
        have ha1 : 1 ≤ seq.length - size - i0 := by omega
        by_cases hle : seq.length - size - i0 ≤ s
        · have e1 : seq.length - size - i0 + s - 1
              = (seq.length - size - i0 - 1) + s := by omega
          have e2 : seq.length - size - (i0 + s) = 0 := by omega
          have d1 : (seq.length - size - i0 - 1) / s = 0 :=
            Nat.div_eq_of_lt (by omega)
          have d2 : (s - 1) / s = 0 := Nat.div_eq_of_lt (by omega)
          rw [e1, Nat.add_div_right _ hs, d1, e2]
          simp [d2]
        · have e1 : seq.length - size - i0 + s - 1
              = (seq.length - size - (i0 + s) + s - 1) + s := by omega
          rw [e1, Nat.add_div_right _ hs]
      have h1' : ¬ seq.length ≤ i0 + size := by omega
      simp only [Course.swLoop, h1', if_neg, not_false_iff, List.length_cons,
        ih (i0 + s), key]
      exact (Nat.succ_min_succ m _).symm

/-- C5: `sliding_window` (both the course and the project version) raises
`ValueError` exactly when `size <= 0` or `step <= 0`; for positive `size`
and `step` both return normally. -/
theorem sliding_window_valueError_iff (seq : List Char) (size step : Int) :
    (Course.sliding_window seq size step
        = Except.error "size and step must be positive" ↔ size ≤ 0 ∨ step ≤ 0)
    ∧ (Ingest.sliding_window seq size step
        = Except.error "size and step must be positive" ↔ size ≤ 0 ∨ step ≤ 0)
    ∧ (0 < size → 0 < step →
        (∃ r, Course.sliding_window seq size step = Except.ok r)
        ∧ ∃ r, Ingest.sliding_window seq size step = Except.ok r) := by
  by_cases h : size ≤ 0 ∨ step ≤ 0
  · refine ⟨⟨fun _ => h, fun _ => ?_⟩, ⟨fun _ => h, fun _ => ?_⟩,
      fun hs hp => absurd h (by omega)⟩
    · simp [Course.sliding_window, h]
    · simp [Ingest.sliding_window, h]
  · refine ⟨⟨fun he => ?_, fun hh => absurd hh h⟩,
      ⟨fun he => ?_, fun hh => absurd hh h⟩,
      fun _ _ =>
        ⟨⟨Course.swLoop seq size.toNat (pyRange seq.length step.toNat), ?_⟩,
         ⟨Ingest.swLoop seq size.toNat (pyRange seq.length step.toNat), ?_⟩⟩⟩
    · simp [Course.sliding_window, h] at he
    · simp [Ingest.sliding_window, h] at he
    · simp [Course.sliding_window, h]
    · simp [Ingest.sliding_window, h]

/-- Witness for C5 at concrete inputs. -/
theorem sliding_window_valueError_iff_witness :
    (Course.sliding_window ['a', 'b'] (-1) 1
      = Except.error "size and step must be positive")
    ∧ ∃ r, Course.sliding_window ['a', 'b'] 2 1 = Except.ok r :=
  ⟨(sliding_window_valueError_iff ['a', 'b'] (-1) 1).1.2 (Or.inl (by decide)),
   ((sliding_window_valueError_iff ['a', 'b'] 2 1).2.2 (by decide)
     (by decide)).1⟩

/-- C9 fails: on `"abc"` with `size = 2`, `step = 1` the course chunker
produces 2 chunks while the project chunker produces 3 (their break
conditions differ: `>=` versus `>`). -/
theorem sliding_window_equiv_counterexample :
    Course.sliding_window ['a', 'b', 'c'] 2 1
      = Except.ok [⟨0, ['a', 'b']⟩, ⟨1, ['b', 'c']⟩]
    ∧ Ingest.sliding_window ['a', 'b', 'c'] 2 1
      = Except.ok [⟨0, ['a', 'b']⟩, ⟨1, ['b', 'c']⟩, ⟨2, ['c']⟩]
    ∧ (Course.sliding_window ['a', 'b', 'c'] 2 1).map List.length
      ≠ (Ingest.sliding_window ['a', 'b', 'c'] 2 1).map List.length :=
  ⟨by decide, by decide, by decide⟩

/-- C9 amended: for positive `size` and `step` the course chunker's output is
an entrywise prefix of the project chunker's output (same starts, same
substrings, under keys `'chunk'` respectively `'content'`); the project
version may append further trailing chunks. -/
theorem sliding_window_course_refines_ingest (seq : List Char)
    (size step : Int) (hsize : 0 < size) (hstep : 0 < step) :
    ∃ cs ks, Course.sliding_window seq size step = Except.ok cs
      ∧ Ingest.sliding_window seq size step = Except.ok ks
      ∧ ∃ t, cs.map Course.CourseChunk.pair ++ t
          = ks.map Ingest.IngestChunk.pair := by
  have hc : ¬ (size ≤ 0 ∨ step ≤ 0) := by omega
  refine ⟨Course.swLoop seq size.toNat (pyRange seq.length step.toNat),
    Ingest.swLoop seq size.toNat (pyRange seq.length step.toNat),
    by simp [Course.sliding_window, hc],
    by simp [Ingest.sliding_window, hc], ?_⟩
  generalize pyRange seq.length step.toNat = idxs
  induction idxs with
  | nil => exact ⟨[], rfl⟩
  | cons i rest ih =>
    by_cases h1 : seq.length ≤ i + size.toNat
    · by_cases h2 : seq.length < i + size.toNat
      · exact ⟨[], by simp [Course.swLoop, Ingest.swLoop, h1, h2,
          Course.CourseChunk.pair, Ingest.IngestChunk.pair]⟩
      · refine ⟨(Ingest.swLoop seq size.toNat rest).map
          Ingest.IngestChunk.pair, ?_⟩
        simp [Course.swLoop, Ingest.swLoop, h1, h2,
          Course.CourseChunk.pair, Ingest.IngestChunk.pair]
    · have h2 : ¬ seq.length < i + size.toNat := by omega
      obtain ⟨t, ht⟩ := ih
      refine ⟨t, ?_⟩
      simp only [Course.swLoop, Ingest.swLoop, h1, h2, if_neg,
        not_false_iff, List.map_cons, List.cons_append]
      exact congrArg _ ht

/-- Witness for C9's amended theorem at a concrete input. -/
theorem sliding_window_course_refines_ingest_witness :
    ∃ cs ks, Course.sliding_window ['a', 'b', 'c'] 2 1 = Except.ok cs
      ∧ Ingest.sliding_window ['a', 'b', 'c'] 2 1 = Except.ok ks
      ∧ ∃ t, cs.map Course.CourseChunk.pair ++ t
          = ks.map Ingest.IngestChunk.pair :=
  sliding_window_course_refines_ingest ['a', 'b', 'c'] 2 1 (by decide)
    (by decide)

/-- C1 fails: on `"ab"` with `size = 1`, `step = 2` the loop ends because
`range(0, 2, 2)` is exhausted, never hitting the break, and produces a single
chunk, while the claimed count `max(ceil((2-1)/2), 0) + 1` is `2`. -/
theorem sliding_window_count_counterexample :
    Course.sliding_window ['a', 'b'] 1 2 = Except.ok [⟨0, ['a']⟩]
    ∧ claimedChunkCount 2 1 2 = 2
    ∧ (Course.sliding_window ['a', 'b'] 1 2).map
        (fun l => (l.length : Int))
      ≠ Except.ok (claimedChunkCount 2 1 2) :=
  ⟨by decide, by decide, by decide⟩

/-- C1 amended: for `size > 0` and `step > 0`, `sliding_window` returns
chunk `k` starting at `k * step` holding `seq[k*step : k*step+size]`; the
result is empty for empty `seq`; and the number of chunks is the minimum of
the length of `range(0, n, step)` (range exhaustion) and
`ceil((n - size)/step) + 1` (the break), each ceiling division written as
`(a + step - 1) / step` over `Nat`. -/
theorem sliding_window_spec (seq : List Char) (size step : Int)
    (hsize : 0 < size) (hstep : 0 < step) :
    ∃ r, Course.sliding_window seq size step = Except.ok r
      ∧ (∀ k, k < r.length →
          r[k]? = some ⟨k * step.toNat,
            (seq.drop (k * step.toNat)).take size.toNat⟩)
      ∧ (seq = [] → r = [])
      ∧ r.length = min ((seq.length + step.toNat - 1) / step.toNat)
          ((seq.length - size.toNat + step.toNat - 1) / step.toNat + 1) := by
  have hc : ¬ (size ≤ 0 ∨ step ≤ 0) := by omega
  have hs : 0 < step.toNat := by omega
  refine ⟨Course.swLoop seq size.toNat (pyRange seq.length step.toNat),
    by simp [Course.sliding_window, hc], ?_, ?_, ?_⟩
  · intro k hk
    have := swLoop_range'_getElem seq size.toNat step.toNat
      ((seq.length + step.toNat - 1) / step.toNat) 0 k
      (by simpa [pyRange] using hk)
    simpa [pyRange] using this
  · intro hseq
    subst hseq
    have hz : (step.toNat - 1) / step.toNat = 0 :=
      Nat.div_eq_of_lt (by omega)
    simp [pyRange, hz, List.range', Course.swLoop]
  · have := swLoop_range'_length seq size.toNat step.toNat hs
      ((seq.length + step.toNat - 1) / step.toNat) 0
    simpa [pyRange] using this

/-! ### Python dictionaries

Association lists in insertion order.  `dAssign` models `d[k] = v`
(replace in place, append when absent), `dGet` models `d.get(k)`,
`dPop` models `d.pop(k, default)` on a copy. -/

/-- Python dict lookup `d.get(k)`. -/
def dGet {α : Type} (k : String) : List (String × α) → Option α
  | [] => none
  | (k', v) :: rest => if k' = k then some v else dGet k rest

/-- Python dict assignment `d[k] = v`: replaces the value in place when the
key exists, appends otherwise. -/
def dAssign {α : Type} (k : String) (v : α) :
    List (String × α) → List (String × α)
  | [] => [(k, v)]
  | (k', v') :: rest =>
    if k' = k then (k, v) :: rest else (k', v') :: dAssign k v rest

/-- The dictionary without key `k` (the state of a copy after `pop(k)`). -/
def dPop {α : Type} (k : String) (d : List (String × α)) :
    List (String × α) :=
  d.filter (fun p => decide (p.1 ≠ k))

theorem dGet_dAssign_self {α : Type} (k : String) (v : α)
    (d : List (String × α)) : dGet k (dAssign k v d) = some v := by
  induction d with
  | nil => simp [dAssign, dGet]
  | cons p rest ih =>
    by_cases h : p.1 = k
    · simp [dAssign, dGet, h]
    · simp [dAssign, dGet, h, ih]

theorem dGet_dAssign_ne {α : Type} {k k' : String} (h : k ≠ k') (v : α)
    (d : List (String × α)) : dGet k (dAssign k' v d) = dGet k d := by
  have h' : ¬ k' = k := fun hh => h hh.symm
  induction d with
  | nil => simp [dAssign, dGet, h']
  | cons p rest ih =>
    obtain ⟨k0, v0⟩ := p
    by_cases hp : k0 = k'
    · have hpk : ¬ k0 = k := by rw [hp]; exact h'
      simp [dAssign, dGet, hp, h', hpk]
    · by_cases hk : k0 = k
      · simp [dAssign, dGet, hp, hk, h]
      · simp [dAssign, dGet, hp, hk, h, ih]

theorem dGet_dPop_ne {α : Type} {k k' : String} (h : k ≠ k')
    (d : List (String × α)) : dGet k (dPop k' d) = dGet k d := by
  induction d with
  | nil => rfl
  | cons p rest ih =>
    obtain ⟨k0, v0⟩ := p
    by_cases hp : k0 = k'
    · have hpk : ¬ k0 = k := by rw [hp]; exact fun hh => h hh.symm
      have hdrop : dPop k' ((k0, v0) :: rest) = dPop k' rest := by
        simp [dPop, hp]
      rw [hdrop, ih]
      simp [dGet, hpk]
    · have hkeep : dPop k' ((k0, v0) :: rest) = (k0, v0) :: dPop k' rest := by
        simp [dPop, hp]
      rw [hkeep]
      by_cases hk : k0 = k
      · simp [dGet, hk]
      · simp [dGet, hk, ih]

/-! ### `chunk_documents_sliding_window` from `course/day2_chunking.py`
(lines 92-125) -/

/-- A value stored in a document dictionary: frontmatter and content are
strings, `chunk_start` is an integer. -/
inductive DVal where
  | str (s : List Char)
  | nat (n : Nat)
deriving DecidableEq, Repr

/-- A document dictionary. -/
abbrev DocDict := List (String × DVal)

/-- `doc_copy.pop('content', '')`: the `'content'` value when it is a
string, the empty default otherwise. -/
def contentOf (doc : DocDict) : List Char :=
  match dGet "content" doc with
  | some (DVal.str s) => s
  | _ => []

/-- The record built for one window chunk: `doc_copy` (the document minus
`'content'`) with keys `'chunk'`, `'chunk_start'`, `'chunk_method'`
assigned in that order. -/
def chunkRecord (doc_copy : DocDict) (ch : Course.CourseChunk) : DocDict :=
  dAssign "chunk_method" (DVal.str "sliding_window".toList)
    (dAssign "chunk_start" (DVal.nat ch.start)
      (dAssign "chunk" (DVal.str ch.chunk) doc_copy))

/-- `chunk_documents_sliding_window` from `course/day2_chunking.py`:
documents with missing or empty `'content'` are skipped; the others are cut
with `sliding_window` (whose `ValueError` propagates) and each chunk becomes
a record derived from a copy of the document. -/
def chunk_documents_sliding_window (documents : List DocDict)
    (chunk_size chunk_step : Int) : Except String (List DocDict) := do
  let chunkLists ← documents.mapM (fun doc => do
    let doc_copy := dPop "content" doc
    let doc_content := contentOf doc
    if doc_content = [] then pure []
    else do
      let chunk_list ← Course.sliding_window doc_content chunk_size chunk_step
      pure (chunk_list.map (chunkRecord doc_copy)))
  pure chunkLists.flatten

/-- The records contributed by one document, for positive size and step. -/
def docChunkRecords (size step : Nat) (doc : DocDict) : List DocDict :=
  if contentOf doc = [] then []
  else (Course.swLoop (contentOf doc) size
    (pyRange (contentOf doc).length step)).map (chunkRecord (dPop "content" doc))

/-- Every chunk the course loop emits holds the substring of `seq` of length
`size` starting at its own start offset. -/
theorem swLoop_mem_chunk (seq : List Char) (size : Nat) :
    ∀ idxs ch, ch ∈ Course.swLoop seq size idxs →
      ch.chunk = (seq.drop ch.start).take size := by
  intro idxs
  induction idxs with
  | nil => intro ch h; simp [Course.swLoop] at h
  | cons i rest ih =>
    intro ch h
    by_cases h1 : seq.length ≤ i + size
    · simp [Course.swLoop, h1] at h
      subst h
      rfl
    · simp [Course.swLoop, h1] at h
      rcases h with h | h
      · subst h; rfl
      · exact ih ch h

/-- `mapM` over `Except` succeeds pointwise. -/
theorem mapM_except_ok {α β : Type} (f : α → Except String β) (g : α → β)
    (h : ∀ a, f a = Except.ok (g a)) :
    ∀ l : List α, l.mapM f = Except.ok (l.map g) := by
  intro l
  induction l with
  | nil => rfl
  | cons a rest ih =>
    rw [List.mapM_cons, h a, ih]
    rfl

/-- C8 fails as stated: a source document that itself has a `'chunk'` key
does not keep its original value, the chunk text overwrites it. -/
theorem chunk_documents_key_collision_counterexample :
    chunk_documents_sliding_window
        [[("content", DVal.str ['a', 'b']), ("chunk", DVal.str ['x'])]] 2 2
      = Except.ok [[("chunk", DVal.str ['a', 'b']),
          ("chunk_start", DVal.nat 0),
          ("chunk_method", DVal.str "sliding_window".toList)]]
    ∧ dGet "chunk"
        [("content", DVal.str ['a', 'b']), ("chunk", DVal.str ['x'])]
        = some (DVal.str ['x'])
    ∧ DVal.str ['a', 'b'] ≠ DVal.str ['x'] :=
  ⟨by decide, by decide, by decide⟩

/-- C8 amended: every record carries the chunk text under `'chunk'`, its
start under `'chunk_start'`, the tag `'sliding_window'` under
`'chunk_method'`, and every key of its source document other than
`'content'`, `'chunk'`, `'chunk_start'`, `'chunk_method'` with its original
value; documents with missing or empty content contribute nothing. -/
theorem chunk_documents_sliding_window_spec (documents : List DocDict)
    (size step : Int) (hsize : 0 < size) (hstep : 0 < step) :
    ∃ chunks, chunk_documents_sliding_window documents size step
        = Except.ok chunks
      ∧ chunks = (documents.map (docChunkRecords size.toNat step.toNat)).flatten
      ∧ ∀ rec ∈ chunks, ∃ doc ∈ documents, contentOf doc ≠ [] ∧ ∃ start,
          dGet "chunk_method" rec = some (DVal.str "sliding_window".toList)
          ∧ dGet "chunk_start" rec = some (DVal.nat start)
          ∧ dGet "chunk" rec
              = some (DVal.str (((contentOf doc).drop start).take size.toNat))
          ∧ ∀ k, k ≠ "content" → k ≠ "chunk" → k ≠ "chunk_start" →
              k ≠ "chunk_method" → dGet k rec = dGet k doc := by
  have hc : ¬ (size ≤ 0 ∨ step ≤ 0) := by omega
  have hmain : chunk_documents_sliding_window documents size step
      = Except.ok
        ((documents.map (docChunkRecords size.toNat step.toNat)).flatten) := by
    unfold chunk_documents_sliding_window
    rw [mapM_except_ok _ (docChunkRecords size.toNat step.toNat) ?_ documents]
    · rfl
    · intro doc
      by_cases hcont : contentOf doc = []
      · simp only [docChunkRecords, hcont, if_pos]
        rfl
      · simp only [docChunkRecords, hcont, if_neg, not_false_iff,
          Course.sliding_window, hc]
        rfl
  refine ⟨_, hmain, rfl, ?_⟩
  intro rec hrec
  rw [List.mem_flatten] at hrec
  obtain ⟨l, hl, hrl⟩ := hrec
  rw [List.mem_map] at hl
  obtain ⟨doc, hdoc, hldoc⟩ := hl
  subst hldoc
  rw [docChunkRecords] at hrl
  by_cases hcont : contentOf doc = []
  · simp [hcont] at hrl
  · rw [if_neg hcont, List.mem_map] at hrl
    obtain ⟨ch, hch, hrec⟩ := hrl
    subst hrec
    refine ⟨doc, hdoc, hcont, ch.start, ?_, ?_, ?_, ?_⟩
    · exact dGet_dAssign_self _ _ _
    · rw [chunkRecord, dGet_dAssign_ne (by decide)]
      exact dGet_dAssign_self _ _ _
    · rw [chunkRecord, dGet_dAssign_ne (by decide),
        dGet_dAssign_ne (by decide), dGet_dAssign_self,
        swLoop_mem_chunk (contentOf doc) size.toNat _ ch hch]
    · intro k hk1 hk2 hk3 hk4
      rw [chunkRecord, dGet_dAssign_ne hk4, dGet_dAssign_ne hk3,
        dGet_dAssign_ne hk2, dGet_dPop_ne hk1]

/-- Witness for C8's amended theorem at a concrete input. -/
theorem chunk_documents_sliding_window_spec_witness :
    ∃ chunks, chunk_documents_sliding_window
        [[("content", DVal.str ['a', 'b']), ("title", DVal.str ['t'])]] 2 2
        = Except.ok chunks
      ∧ chunks = ([[("content", DVal.str ['a', 'b']),
            ("title", DVal.str ['t'])]].map
          (docChunkRecords (2 : Int).toNat (2 : Int).toNat)).flatten
      ∧ ∀ rec ∈ chunks, ∃ doc ∈ [[("content", DVal.str ['a', 'b']),
            ("title", DVal.str ['t'])]], contentOf doc ≠ [] ∧ ∃ start,
          dGet "chunk_method" rec = some (DVal.str "sliding_window".toList)
          ∧ dGet "chunk_start" rec = some (DVal.nat start)
          ∧ dGet "chunk" rec
              = some (DVal.str (((contentOf doc).drop start).take
                  (2 : Int).toNat))
          ∧ ∀ k, k ≠ "content" → k ≠ "chunk" → k ≠ "chunk_start" →
              k ≠ "chunk_method" → dGet k rec = dGet k doc :=
  chunk_documents_sliding_window_spec
    [[("content", DVal.str ['a', 'b']), ("title", DVal.str ['t'])]] 2 2
    (by decide) (by decide)

/-! ### `log_interaction_to_file` from `project/day6_logs.py` (lines 55-90)
and `project/day5_evaluation.py` (lines 79-114); the two copies are
identical. -/

/-- A wall-clock timestamp (Python `datetime`, to second precision; the
sub-second fields are not rendered by `%Y%m%d_%H%M%S`). -/
structure DateTime where
  year : Nat
  month : Nat
  day : Nat
  hour : Nat
  minute : Nat
  second : Nat
deriving DecidableEq, Repr

/-- Two-digit zero-padded decimal rendering (`%m`, `%d`, `%H`, `%M`, `%S`). -/
def pad2 (n : Nat) : List Char :=
  [Nat.digitChar (n / 10 % 10), Nat.digitChar (n % 10)]

/-- Four-digit zero-padded decimal rendering (`%Y`, years below 10000). -/
def pad4 (n : Nat) : List Char :=
  [Nat.digitChar (n / 1000 % 10), Nat.digitChar (n / 100 % 10),
   Nat.digitChar (n / 10 % 10), Nat.digitChar (n % 10)]

/-- `ts.strftime("%Y%m%d_%H%M%S")`. -/
def strftime_Ymd_HMS (t : DateTime) : List Char :=
  pad4 t.year ++ pad2 t.month ++ pad2 t.day ++ ['_']
    ++ pad2 t.hour ++ pad2 t.minute ++ pad2 t.second

/-- One byte as two lowercase hexadecimal characters. -/
def toHex2 (b : Nat) : List Char :=
  [Nat.digitChar (b / 16 % 16), Nat.digitChar (b % 16)]

/-- `secrets.token_hex(3)`: three random bytes rendered as 6 lowercase
hexadecimal characters; the randomness is passed in as the bytes. -/
def token_hex3 (b0 b1 b2 : Nat) : List Char :=
  toHex2 b0 ++ toHex2 b1 ++ toHex2 b2

/-- A hexadecimal character as produced by `token_hex`. -/
def isHexChar (c : Char) : Prop :=
  c ∈ "0123456789abcdef".toList

instance (c : Char) : Decidable (isHexChar c) := by
  unfold isHexChar
  infer_instance

/-- One entry of `entry['messages']` as dumped by
`ModelMessagesTypeAdapter.dump_python`: only the fields the code reads are
modelled (`parts`, with their `content`, and the optional `timestamp`). -/
structure MsgPart where
  content : List Char
deriving DecidableEq, Repr

/-- A dumped message dict. -/
structure LogMessage where
  parts : List MsgPart
  timestamp : Option DateTime
deriving DecidableEq, Repr

/-- The timestamp `log_interaction_to_file` renders into the filename:
`entry['messages'][-1].get('timestamp', datetime.now())` when the message
list is non-empty, `datetime.now()` otherwise.  (A string timestamp is
parsed back with `fromisoformat`; here timestamps are already structured.) -/
def tsUsed (messages : List LogMessage) (now : DateTime) : DateTime :=
  match messages.getLast? with
  | some m => m.timestamp.getD now
  | none => now

/-- The result of `log_interaction_to_file`: the returned path and the
list of files written (exactly the one `json.dump` target). -/
structure LogFileResult where
  filepath : List Char
  written : List (List Char)
deriving DecidableEq, Repr

/-- `log_interaction_to_file` from `project/day6_logs.py` /
`project/day5_evaluation.py`.  `now` stands for `datetime.now()` and
`b0 b1 b2` for the three random bytes of `secrets.token_hex(3)`;
`LOG_DIR` is `logs`. -/
def log_interaction_to_file (agent_name : List Char)
    (messages : List LogMessage) (now : DateTime) (b0 b1 b2 : Nat) :
    LogFileResult :=
  let ts := tsUsed messages now
  let ts_str := strftime_Ymd_HMS ts
  let rand_hex := token_hex3 b0 b1 b2
  let filename := agent_name ++ ['_'] ++ ts_str ++ ['_'] ++ rand_hex
    ++ ".json".toList
  let filepath := "logs/".toList ++ filename
  { filepath := filepath, written := [filepath] }

theorem isHexChar_digitChar {n : Nat} (h : n < 16) :
    isHexChar (Nat.digitChar n) := by
  interval_cases n <;> decide

/-- C6: the log file name is
`<agent name>_<YYYYMMDD_HHMMSS>_<6 hex chars>.json` under `logs/`, the
timestamp comes from the last message when present (falling back to the
current time), exactly one file is written, and its path is returned. -/
theorem log_interaction_to_file_spec (agent_name : List Char)
    (messages : List LogMessage) (now : DateTime) (b0 b1 b2 : Nat) :
    ∃ ts, (log_interaction_to_file agent_name messages now b0 b1 b2).filepath
        = "logs/".toList ++ agent_name ++ ['_'] ++ strftime_Ymd_HMS ts
          ++ ['_'] ++ token_hex3 b0 b1 b2 ++ ".json".toList
      ∧ (messages = [] → ts = now)
      ∧ (∀ m t, messages.getLast? = some m → m.timestamp = some t → ts = t)
      ∧ (∀ m, messages.getLast? = some m → m.timestamp = none → ts = now)
      ∧ (token_hex3 b0 b1 b2).length = 6
      ∧ (∀ c ∈ token_hex3 b0 b1 b2, isHexChar c)
      ∧ (strftime_Ymd_HMS ts).length = 15
      ∧ (log_interaction_to_file agent_name messages now b0 b1 b2).written
          = [(log_interaction_to_file agent_name messages now b0 b1 b2).filepath] := by
  refine ⟨tsUsed messages now, by simp [log_interaction_to_file], ?_, ?_, ?_,
    rfl, ?_, ?_, rfl⟩
  · intro h
    subst h
    rfl
  · intro m t hm ht
    simp [tsUsed, hm, ht]
  · intro m hm ht
    simp [tsUsed, hm, ht]
  · intro c hc
    simp only [token_hex3, toHex2, List.mem_append, List.mem_singleton,
      List.mem_cons, List.not_mem_nil, or_false] at hc
    rcases hc with ((h | h) | (h | h)) | (h | h) <;> subst h <;>
      exact isHexChar_digitChar (Nat.mod_lt _ (by norm_num))
  · simp [strftime_Ymd_HMS, pad4, pad2]

/-- Witness for C6 at a concrete input. -/
theorem log_interaction_to_file_spec_witness :
    ∃ ts, (log_interaction_to_file "agent".toList
          [⟨[⟨"hi".toList⟩], some ⟨2025, 1, 2, 3, 4, 5⟩⟩]
          ⟨2025, 6, 7, 8, 9, 10⟩ 0 171 255).filepath
        = "logs/".toList ++ "agent".toList ++ ['_'] ++ strftime_Ymd_HMS ts
          ++ ['_'] ++ token_hex3 0 171 255 ++ ".json".toList
      ∧ (([⟨[⟨"hi".toList⟩], some ⟨2025, 1, 2, 3, 4, 5⟩⟩]
            : List LogMessage) = [] → ts = ⟨2025, 6, 7, 8, 9, 10⟩)
      ∧ (∀ m t, ([⟨[⟨"hi".toList⟩], some ⟨2025, 1, 2, 3, 4, 5⟩⟩]
            : List LogMessage).getLast? = some m →
          m.timestamp = some t → ts = t)
      ∧ (∀ m, ([⟨[⟨"hi".toList⟩], some ⟨2025, 1, 2, 3, 4, 5⟩⟩]
            : List LogMessage).getLast? = some m →
          m.timestamp = none → ts = ⟨2025, 6, 7, 8, 9, 10⟩)
      ∧ (token_hex3 0 171 255).length = 6
      ∧ (∀ c ∈ token_hex3 0 171 255, isHexChar c)
      ∧ (strftime_Ymd_HMS ts).length = 15
      ∧ (log_interaction_to_file "agent".toList
          [⟨[⟨"hi".toList⟩], some ⟨2025, 1, 2, 3, 4, 5⟩⟩]
          ⟨2025, 6, 7, 8, 9, 10⟩ 0 171 255).written
          = [(log_interaction_to_file "agent".toList
              [⟨[⟨"hi".toList⟩], some ⟨2025, 1, 2, 3, 4, 5⟩⟩]
              ⟨2025, 6, 7, 8, 9, 10⟩ 0 171 255).filepath] :=
  log_interaction_to_file_spec "agent".toList
    [⟨[⟨"hi".toList⟩], some ⟨2025, 1, 2, 3, 4, 5⟩⟩]
    ⟨2025, 6, 7, 8, 9, 10⟩ 0 171 255

/-! ### `calculate_metrics` and `print_evaluation_summary` from
`project/day5_evaluation.py` (lines 316-380) -/

/-- `EvaluationCheck` from `project/day5_evaluation.py`. -/
structure EvaluationCheck where
  check_name : String
  justification : List Char
  check_pass : Bool
deriving DecidableEq, Repr

/-- `EvaluationChecklist` from `project/day5_evaluation.py`. -/
structure EvaluationChecklist where
  checklist : List EvaluationCheck
  summary : List Char
deriving DecidableEq, Repr

/-- A loaded log record: the fields `calculate_metrics` reads. -/
structure LogRecord where
  log_file : List Char
  messages : List LogMessage
deriving DecidableEq, Repr

/-- `Path(x).name`: the part of the path after the last `'/'`. -/
def pathName (s : List Char) : List Char :=
  (s.reverse.takeWhile (fun c => decide (c ≠ '/'))).reverse

/-- `{c.check_name: c.check_pass for c in eval_result.checklist}`: a dict
comprehension, later duplicates overwrite earlier ones. -/
def checksDict (cl : List EvaluationCheck) : List (String × Bool) :=
  cl.foldl (fun d c => dAssign c.check_name c.check_pass d) []

/-- One row of the metrics table. -/
structure MetricRow where
  file : List Char
  question : List Char
  answer : List Char
  checks : List (String × Bool)
deriving DecidableEq, Repr

/-- The row `calculate_metrics` builds for one `(log_record, eval_result)`
pair: `messages[0]['parts'][0]` and `messages[-1]['parts'][0]` raise
`IndexError` (modelled as `.error`) when absent. -/
def rowOf (p : LogRecord × EvaluationChecklist) : Except String MetricRow :=
  match p.1.messages.head?, p.1.messages.getLast? with
  | some m0, some ml =>
    match m0.parts.head?, ml.parts.head? with
    | some q, some a =>
      Except.ok { file := pathName p.1.log_file, question := q.content,
                  answer := a.content, checks := checksDict p.2.checklist }
    | _, _ => Except.error "IndexError"
  | _, _ => Except.error "IndexError"

/-- `calculate_metrics` from `project/day5_evaluation.py`. -/
def calculate_metrics
    (eval_results : List (LogRecord × EvaluationChecklist)) :
    Except String (List MetricRow) :=
  eval_results.mapM rowOf

/-- The pass rate `print_evaluation_summary` reports for one check column:
`df_evals[col].mean()`, the mean of the column's boolean values (pandas
skips rows where the column is absent). -/
def meanBoolColumn (rows : List MetricRow) (name : String) : ℚ :=
  let vs := rows.filterMap (fun r => dGet name r.checks)
  (vs.count true : ℚ) / vs.length

/-- `mapM` over `Except` with a pointwise relation. -/
theorem mapM_except_forall {α β : Type} (f : α → Except String β)
    (R : α → β → Prop) :
    ∀ l : List α, (∀ a ∈ l, ∃ b, f a = Except.ok b ∧ R a b) →
      ∃ bs, l.mapM f = Except.ok bs ∧ List.Forall₂ R l bs := by
  intro l
  induction l with
  | nil => exact fun _ => ⟨[], rfl, List.Forall₂.nil⟩
  | cons a rest ih =>
    intro h
    obtain ⟨b, hfb, hR⟩ := h a (List.mem_cons_self a rest)
    obtain ⟨bs, hbs, hF⟩ := ih (fun x hx => h x (List.mem_cons_of_mem a hx))
    refine ⟨b :: bs, ?_, List.Forall₂.cons hR hF⟩
    rw [List.mapM_cons, hfb, hbs]
    rfl

theorem dGet_checksDict_foldl_not_mem (cl : List EvaluationCheck)
    (k : String) (hk : k ∉ cl.map EvaluationCheck.check_name) :
    ∀ acc : List (String × Bool),
      dGet k (cl.foldl (fun d c => dAssign c.check_name c.check_pass d) acc)
        = dGet k acc := by
  induction cl with
  | nil => intro acc; rfl
  | cons c rest ih =>
    intro acc
    simp only [List.map_cons, List.mem_cons, not_or] at hk
    rw [List.foldl_cons, ih hk.2, dGet_dAssign_ne hk.1]

theorem dGet_checksDict_foldl_mem (cl : List EvaluationCheck)
    (hnd : (cl.map EvaluationCheck.check_name).Nodup) :
    ∀ c ∈ cl, ∀ acc : List (String × Bool),
      dGet c.check_name
        (cl.foldl (fun d c => dAssign c.check_name c.check_pass d) acc)
        = some c.check_pass := by
  induction cl with
  | nil => intro c hc; simp at hc
  | cons c0 rest ih =>
    intro c hc acc
    simp only [List.map_cons, List.nodup_cons] at hnd
    rcases List.mem_cons.mp hc with hc0 | hcr
    · subst hc0
      rw [List.foldl_cons,
        dGet_checksDict_foldl_not_mem rest c.check_name hnd.1]
      exact dGet_dAssign_self _ _ _
    · exact ih hnd.2 c hcr _

theorem filterMap_dGet_all_some (name : String) :
    ∀ rows : List MetricRow, (∀ r ∈ rows, dGet name r.checks ≠ none) →
      (rows.filterMap (fun r => dGet name r.checks)).length = rows.length
      ∧ (rows.filterMap (fun r => dGet name r.checks)).count true
          = rows.countP (fun r => decide (dGet name r.checks = some true)) := by
  intro rows
  induction rows with
  | nil => exact fun _ => ⟨rfl, rfl⟩
  | cons r rest ih =>
    intro h
    have hr := h r (List.mem_cons_self r rest)
    obtain ⟨b, hb⟩ : ∃ b, dGet name r.checks = some b := by
      cases hget : dGet name r.checks with
      | none => exact absurd hget hr
      | some b => exact ⟨b, rfl⟩
    obtain ⟨ih1, ih2⟩ := ih (fun x hx => h x (List.mem_cons_of_mem r hx))
    constructor
    · simp [List.filterMap_cons, hb, ih1]
    · cases b with
      | true =>
        simp [List.filterMap_cons, hb, List.count_cons, List.countP_cons,
          ih2]
      | false =>
        simp [List.filterMap_cons, hb, List.count_cons, List.countP_cons,
          ih2]

/-- What C7 asserts of the row built for one `(log record, eval result)`
pair. -/
def metricRowRel (p : LogRecord × EvaluationChecklist) (row : MetricRow) :
    Prop :=
  row.file = pathName p.1.log_file
  ∧ (∀ m0 q, p.1.messages.head? = some m0 →
      m0.parts.head? = some q → row.question = q.content)
  ∧ (∀ ml a, p.1.messages.getLast? = some ml →
      ml.parts.head? = some a → row.answer = a.content)
  ∧ row.checks = checksDict p.2.checklist
  ∧ ((p.2.checklist.map EvaluationCheck.check_name).Nodup →
      ∀ c ∈ p.2.checklist,
        dGet c.check_name row.checks = some c.check_pass)

/-- C7: `calculate_metrics` yields one row per `(log record, eval result)`
pair; each row's `question`/`answer` are the contents of the first part of
the first/last message, its check columns are the checklist's
`check_pass` values; the summary's pass rate per check is the mean of the
boolean column, i.e. the fraction of rows whose check passed. -/
theorem calculate_metrics_spec
    (eval_results : List (LogRecord × EvaluationChecklist))
    (H : ∀ p ∈ eval_results, ∃ m0 ml, p.1.messages.head? = some m0
      ∧ p.1.messages.getLast? = some ml ∧ m0.parts ≠ [] ∧ ml.parts ≠ []) :
    ∃ rows, calculate_metrics eval_results = Except.ok rows
      ∧ rows.length = eval_results.length
      ∧ List.Forall₂ metricRowRel eval_results rows
      ∧ (∀ name, (∀ r ∈ rows, dGet name r.checks ≠ none) →
          meanBoolColumn rows name
            = (rows.countP
                (fun r => decide (dGet name r.checks = some true)) : ℚ)
              / rows.length) := by
  have hpt : ∀ p ∈ eval_results,
      ∃ row, rowOf p = Except.ok row ∧ metricRowRel p row := by
    intro p hp
    obtain ⟨m0, ml, hm0, hml, hq, ha⟩ := H p hp
    obtain ⟨q, hq'⟩ : ∃ q, m0.parts.head? = some q := by
      cases hh : m0.parts.head? with
      | none => exact absurd (List.head?_eq_none_iff.mp hh) hq
      | some q => exact ⟨q, rfl⟩
    obtain ⟨a, ha'⟩ : ∃ a, ml.parts.head? = some a := by
      cases hh : ml.parts.head? with
      | none => exact absurd (List.head?_eq_none_iff.mp hh) ha
      | some a => exact ⟨a, rfl⟩
    refine ⟨MetricRow.mk (pathName p.1.log_file) q.content a.content
        (checksDict p.2.checklist),
      by simp only [rowOf, hm0, hml, hq', ha'], rfl, ?_, ?_, rfl, ?_⟩
    · intro m0' q' h1 h2
      rw [hm0] at h1
      cases h1
      rw [hq'] at h2
      cases h2
      rfl
    · intro ml' a' h1 h2
      rw [hml] at h1
      cases h1
      rw [ha'] at h2
      cases h2
      rfl
    · intro hnd c hc
      exact dGet_checksDict_foldl_mem p.2.checklist hnd c hc []
  obtain ⟨rows, hok, hF⟩ := mapM_except_forall rowOf metricRowRel
    eval_results hpt
  refine ⟨rows, hok, (List.Forall₂.length_eq hF).symm, hF, ?_⟩
  intro name hname
  obtain ⟨h1, h2⟩ := filterMap_dGet_all_some name rows hname
  simp only [meanBoolColumn, h1, h2]

/-- Witness for C7 at a concrete input. -/
theorem calculate_metrics_spec_witness :
    ∃ rows, calculate_metrics
        [(⟨"logs/a.json".toList, [⟨[⟨"q".toList⟩], none⟩]⟩,
          ⟨[⟨"answer_clear", "ok".toList, true⟩], "fine".toList⟩)]
        = Except.ok rows
      ∧ rows.length = ([(⟨"logs/a.json".toList, [⟨[⟨"q".toList⟩], none⟩]⟩,
          ⟨[⟨"answer_clear", "ok".toList, true⟩], "fine".toList⟩)]
            : List (LogRecord × EvaluationChecklist)).length
      ∧ List.Forall₂ metricRowRel
          [(⟨"logs/a.json".toList, [⟨[⟨"q".toList⟩], none⟩]⟩,
            ⟨[⟨"answer_clear", "ok".toList, true⟩], "fine".toList⟩)] rows
      ∧ (∀ name, (∀ r ∈ rows, dGet name r.checks ≠ none) →
          meanBoolColumn rows name
            = (rows.countP
                (fun r => decide (dGet name r.checks = some true)) : ℚ)
              / rows.length) :=
  calculate_metrics_spec
    [(⟨"logs/a.json".toList, [⟨[⟨"q".toList⟩], none⟩]⟩,
      ⟨[⟨"answer_clear", "ok".toList, true⟩], "fine".toList⟩)]
    (by intro p hp
        simp only [List.mem_singleton] at hp
        subst hp
        exact ⟨⟨[⟨"q".toList⟩], none⟩, ⟨[⟨"q".toList⟩], none⟩, rfl, rfl,
          by decide, by decide⟩)

/-! ### `QueryTool.query_data` from `project/query_tools.py` (lines 22-146)

A pandas dataframe is modelled as a column list plus rows that map column
names to values; numbers are `ℚ` (standing in for int64/float64 columns),
strings are object columns.  Python raises `TypeError` when ordering a
string against a number (`==`/`!=` instead yield `False`/`True`), and
pandas raises `TypeError` when `mean` is applied to non-numeric values;
both are modelled as `Except.error`.  Group keys are listed in first-seen
order (pandas sorts them; no claim depends on row order). -/

/-- A cell value of a loaded table. -/
inductive Value where
  | num (q : ℚ)
  | str (s : String)
deriving DecidableEq, Repr

/-- A dataframe row: column name to value, in column order. -/
abbrev QRow := List (String × Value)

/-- A pandas dataframe. -/
structure DataFrame where
  cols : List String
  rows : List QRow
deriving DecidableEq, Repr

/-- Reading cell `col` of a row; a malformed frame (row lacking a listed
column) raises `KeyError`. -/
def getCell (r : QRow) (c : String) : Except String Value :=
  match dGet c r with
  | some v => Except.ok v
  | none => Except.error "KeyError"

/-- `cell > val` (Python 3 raises `TypeError` on str-versus-number order
comparisons). -/
def valGt : Value → Value → Except String Bool
  | Value.num a, Value.num b => Except.ok (decide (b < a))
  | Value.str a, Value.str b => Except.ok (decide (b < a))
  | _, _ => Except.error "TypeError"

/-- `cell < val`. -/
def valLt : Value → Value → Except String Bool
  | Value.num a, Value.num b => Except.ok (decide (a < b))
  | Value.str a, Value.str b => Except.ok (decide (a < b))
  | _, _ => Except.error "TypeError"

/-- `cell >= val`. -/
def valGe : Value → Value → Except String Bool
  | Value.num a, Value.num b => Except.ok (decide (b ≤ a))
  | Value.str a, Value.str b => Except.ok (decide (b ≤ a))
  | _, _ => Except.error "TypeError"

/-- `cell <= val`. -/
def valLe : Value → Value → Except String Bool
  | Value.num a, Value.num b => Except.ok (decide (a ≤ b))
  | Value.str a, Value.str b => Except.ok (decide (a ≤ b))
  | _, _ => Except.error "TypeError"

/-- `cell == val`: mismatched types compare unequal rather than raising. -/
def valEqB : Value → Value → Bool
  | Value.num a, Value.num b => decide (a = b)
  | Value.str a, Value.str b => decide (a = b)
  | _, _ => false

/-- Monadic filter over `Except`: an error on any row aborts, as the pandas
comparison is evaluated on the whole column before masking. -/
def filterME {α : Type} (p : α → Except String Bool) :
    List α → Except String (List α)
  | [] => Except.ok []
  | a :: l => do
    let b ← p a
    let t ← filterME p l
    Except.ok (if b then a :: t else t)

/-- `df = df[df[col] <op> val]` for a boolean-mask comparison. -/
def maskFilter (p : Value → Except String Bool) (col : String)
    (df : DataFrame) : Except String DataFrame := do
  let rows ← filterME (fun r => do
    let v ← getCell r col
    p v) df.rows
  Except.ok { df with rows := rows }

/-- One operator entry of a filter dict value, `query_tools.py` lines
63-75: `>`, `<`, `>=`, `<=`, `==`, `!=`; anything else leaves the frame
unchanged (the `if`/`elif` chain has no `else`). -/
def applyOpFilter (op : String) (val : Value) (col : String)
    (df : DataFrame) : Except String DataFrame :=
  if op = ">" then maskFilter (fun v => valGt v val) col df
  else if op = "<" then maskFilter (fun v => valLt v val) col df
  else if op = ">=" then maskFilter (fun v => valGe v val) col df
  else if op = "<=" then maskFilter (fun v => valLe v val) col df
  else if op = "==" then maskFilter (fun v => Except.ok (valEqB v val)) col df
  else if op = "!=" then
    maskFilter (fun v => Except.ok (! valEqB v val)) col df
  else Except.ok df

/-- One value of the `filters` dict: a plain value or an operator dict. -/
inductive FilterVal where
  | plain (v : Value)
  | ops (l : List (String × Value))
deriving DecidableEq, Repr

/-- One iteration of `for col, value in filters.items()`
(`query_tools.py` lines 59-77): filters naming absent columns are
ignored; an operator dict applies its operators in order; a plain value
keeps the rows equal to it. -/
def applyFilterEntry (df : DataFrame) (e : String × FilterVal) :
    Except String DataFrame :=
  if e.1 ∈ df.cols then
    match e.2 with
    | FilterVal.plain v =>
      maskFilter (fun x => Except.ok (valEqB x v)) e.1 df
    | FilterVal.ops l =>
      l.foldlM (fun d p => applyOpFilter p.1 p.2 e.1 d) df
  else Except.ok df

/-- The whole filter stage (`query_tools.py` lines 58-77). -/
def applyFilters (filters : List (String × FilterVal)) (df : DataFrame) :
    Except String DataFrame :=
  filters.foldlM applyFilterEntry df

/-- The projection stage (`query_tools.py` lines 80-83): `if columns:`
skips `None` and `[]`; `available_cols` keeps the requested columns that
exist; `if available_cols:` skips the projection when none exists. -/
def selectColumns (columns : Option (List String)) (df : DataFrame) :
    DataFrame :=
  match columns with
  | none => df
  | some cs =>
    if cs.isEmpty then df
    else
      let available := cs.filter (fun c => decide (c ∈ df.cols))
      if available.isEmpty then df
      else { cols := available,
             rows := df.rows.map (fun r =>
               available.filterMap (fun c => (dGet c r).map (fun v => (c, v)))) }

/-- A column is numeric (`select_dtypes(include=['number'])`) when every
cell of it is a number.  (An empty frame keeps all columns numeric.) -/
def colIsNumeric (df : DataFrame) (c : String) : Bool :=
  df.rows.all (fun r =>
    match dGet c r with
    | some (Value.num _) => true
    | _ => false)

/-- Pairwise sum: numbers add, strings concatenate (pandas object sum),
mixed types raise. -/
def addVal : Value → Value → Except String Value
  | Value.num a, Value.num b => Except.ok (Value.num (a + b))
  | Value.str a, Value.str b => Except.ok (Value.str (a ++ b))
  | _, _ => Except.error "TypeError"

/-- Pairwise max (numeric or lexicographic), mixed types raise. -/
def maxVal : Value → Value → Except String Value
  | Value.num a, Value.num b => Except.ok (Value.num (max a b))
  | Value.str a, Value.str b =>
    Except.ok (Value.str (if a < b then b else a))
  | _, _ => Except.error "TypeError"

/-- Pairwise min (numeric or lexicographic), mixed types raise. -/
def minVal : Value → Value → Except String Value
  | Value.num a, Value.num b => Except.ok (Value.num (min a b))
  | Value.str a, Value.str b =>
    Except.ok (Value.str (if a < b then a else b))
  | _, _ => Except.error "TypeError"

/-- Column sum; the sum of an empty numeric column is `0`. -/
def sumVals : List Value → Except String Value
  | [] => Except.ok (Value.num 0)
  | v :: vs => vs.foldlM addVal v

/-- Column mean: the sum divided by the count; a string sum (pandas would
return a concatenation for `sum` but raises for `mean`) raises. -/
def meanVals (vs : List Value) : Except String Value := do
  let s ← sumVals vs
  match s with
  | Value.num q => Except.ok (Value.num (q / vs.length))
  | Value.str _ => Except.error "TypeError"

/-- Column max (`NaN` for an empty column is not modelled; groups are
non-empty by construction). -/
def maxVals : List Value → Except String Value
  | [] => Except.ok (Value.num 0)
  | v :: vs => vs.foldlM maxVal v

/-- Column min. -/
def minVals : List Value → Except String Value
  | [] => Except.ok (Value.num 0)
  | v :: vs => vs.foldlM minVal v

/-- The key of a row under the group columns. -/
def keyOf (gcols : List String) (r : QRow) : List (Option Value) :=
  gcols.map (fun c => dGet c r)

/-- The distinct elements of a list in first-seen order. -/
def firstOccAux {α : Type} [DecidableEq α] (seen : List α) :
    List α → List α
  | [] => []
  | k :: ks =>
    if k ∈ seen then firstOccAux seen ks
    else k :: firstOccAux (k :: seen) ks

/-- The group keys of `df.groupby(gcols)`. -/
def groupKeys (df : DataFrame) (gcols : List String) :
    List (List (Option Value)) :=
  firstOccAux [] (df.rows.map (keyOf gcols))

/-- `df.groupby(group_cols).<agg>()` for `mean`/`sum`/`max`/`min`
(`query_tools.py` lines 90-99): the group columns become the index, so
the resulting records hold only the aggregated value columns. -/
def groupAgg (df : DataFrame) (gcols : List String)
    (aggOne : List Value → Except String Value) :
    Except String DataFrame := do
  let valueCols := df.cols.filter (fun c => decide (¬ c ∈ gcols))
  let rows ← (groupKeys df gcols).mapM (fun k => do
    let grp := (df.rows.filter (fun r => decide (keyOf gcols r = k)))
    valueCols.mapM (fun c => do
      let vs ← grp.mapM (fun r => getCell r c)
      let v ← aggOne vs
      Except.ok (c, v)))
  Except.ok { cols := valueCols, rows := rows }

/-- `df.groupby(group_cols).size().reset_index(name='count')`
(`query_tools.py` line 95). -/
def groupCount (df : DataFrame) (gcols : List String) : DataFrame :=
  { cols := gcols ++ ["count"],
    rows := (groupKeys df gcols).map (fun k =>
      (List.zip gcols k).map (fun p => (p.1, p.2.getD (Value.num 0)))
      ++ [("count", Value.num
        ((df.rows.filter (fun r => decide (keyOf gcols r = k))).length))]) }

/-- The aggregation stage's result: a dataframe, or a pandas `Series`
(whole-frame aggregation, `query_tools.py` lines 106-119). -/
inductive AggResult where
  | frame (df : DataFrame)
  | series (s : List (String × Value))
deriving DecidableEq, Repr

/-- Whole-frame aggregation (`query_tools.py` lines 104-121): restrict to
the numeric columns; when none exist the frame passes through unchanged,
otherwise `mean`/`sum`/`max`/`min` build a Series indexed by column and
`count` the singleton Series `{'count': len(df)}`. -/
def wholeFrameAgg (agg : String) (df : DataFrame) :
    Except String AggResult :=
  let numeric_cols := df.cols.filter (fun c => colIsNumeric df c)
  if numeric_cols.isEmpty then Except.ok (AggResult.frame df)
  else
    let colSeries := fun (aggOne : List Value → Except String Value) => do
      let s ← numeric_cols.mapM (fun c => do
        let vs ← df.rows.mapM (fun r => getCell r c)
        let v ← aggOne vs
        Except.ok (c, v))
      Except.ok (AggResult.series s)
    if agg = "mean" then colSeries meanVals
    else if agg = "sum" then colSeries sumVals
    else if agg = "count" then
      Except.ok (AggResult.series [("count", Value.num df.rows.length)])
    else if agg = "max" then colSeries maxVals
    else if agg = "min" then colSeries minVals
    else Except.ok (AggResult.frame df)

/-- The aggregation stage (`query_tools.py` lines 86-123): `if
aggregation:` and `if group_by:` treat `None` and empty as false;
`group_cols` keeps the group-by columns that exist, and when none exists
the frame passes through unchanged, as for an unrecognized aggregation
name. -/
def applyAggregation (aggregation : Option String)
    (group_by : Option (List String)) (df : DataFrame) :
    Except String AggResult :=
  match aggregation with
  | none => Except.ok (AggResult.frame df)
  | some agg =>
    match group_by with
    | some gs =>
      if gs.isEmpty then wholeFrameAgg agg df
      else
        let group_cols := gs.filter (fun c => decide (c ∈ df.cols))
        if group_cols.isEmpty then Except.ok (AggResult.frame df)
        else if agg = "mean" then
          AggResult.frame <$> groupAgg df group_cols meanVals
        else if agg = "sum" then
          AggResult.frame <$> groupAgg df group_cols sumVals
        else if agg = "count" then
          Except.ok (AggResult.frame (groupCount df group_cols))
        else if agg = "max" then
          AggResult.frame <$> groupAgg df group_cols maxVals
        else if agg = "min" then
          AggResult.frame <$> groupAgg df group_cols minVals
        else Except.ok (AggResult.frame df)
    | none => wholeFrameAgg agg df

/-- The serialized `result` field (`query_tools.py` lines 126-131):
a frame becomes `result.head(limit).to_dict('records')`, a Series becomes
`result.to_dict()` (a single JSON object, untouched by `limit`). -/
inductive SerializedResult where
  | records (l : List QRow)
  | scalars (s : List (String × Value))
deriving DecidableEq, Repr

/-- `df.head(n)` for any Python int `n`: the first `n` rows when
`n >= 0`, and all rows but the last `|n|` when `n < 0`. -/
def pandasHead {α : Type} (n : Int) (l : List α) : List α :=
  if 0 ≤ n then l.take n.toNat
  else l.take (l.length - (-n).toNat)

/-- `to_dict('records')` after `head(limit)`: one dict per row, keyed by
the frame's columns. -/
def serializeResult (res : AggResult) (limit : Int) : SerializedResult :=
  match res with
  | AggResult.frame df =>
    SerializedResult.records ((pandasHead limit df.rows).map (fun r =>
      df.cols.filterMap (fun c => (dGet c r).map (fun v => (c, v)))))
  | AggResult.series s => SerializedResult.scalars s

/-- `row_count` (`query_tools.py` line 137): the frame's length, or `1`
for a Series. -/
def rowCountOf : AggResult → Nat
  | AggResult.frame df => df.rows.length
  | AggResult.series _ => 1

/-- `columns` (`query_tools.py` line 139): the frame's columns, or the
Series index. -/
def columnsOf : AggResult → List String
  | AggResult.frame df => df.cols
  | AggResult.series s => s.map (fun p => p.1)

/-- The number of records in the serialized `result` field: one per list
entry for a record list, one object for a Series dict. -/
def resultSize : SerializedResult → Nat
  | SerializedResult.records l => l.length
  | SerializedResult.scalars _ => 1

/-- The dictionary `query_data` returns: the missing-table error dict
(lines 47-51), the caught-exception error dict (lines 142-146), or the
success dict (lines 133-140). -/
inductive QueryOutput where
  | missingTable (error : String) (available_tables : List String)
  | failure (error : String) (table_name : String)
  | success (table_name : String) (result : SerializedResult)
      (row_count : Nat) (original_row_count : Nat) (columns : List String)
deriving DecidableEq, Repr

/-- `QueryTool.query_data` (`query_tools.py` lines 22-146): look the table
up, remember its row count, then inside `try` apply filters, projection
and aggregation in that order, serialize, and map any raised error to the
error dict. -/
def query_data (dataframes : List (String × DataFrame))
    (table_name : String) (columns : Option (List String))
    (filters : Option (List (String × FilterVal)))
    (aggregation : Option String) (group_by : Option (List String))
    (limit : Int) : QueryOutput :=
  match dGet table_name dataframes with
  | none =>
    QueryOutput.missingTable ("Table " ++ table_name ++ " not found")
      (dataframes.map (fun p => p.1))
  | some df =>
    let original_count := df.rows.length
    match (applyFilters (filters.getD []) df >>= fun df1 =>
        applyAggregation aggregation group_by (selectColumns columns df1)) with
    | Except.error e => QueryOutput.failure e table_name
    | Except.ok result =>
      QueryOutput.success table_name (serializeResult result limit)
        (rowCountOf result) original_count (columnsOf result)

/-- `query_data` as a state transformer on the loader's dataframes: the
method only reads `self.data_loader.dataframes` (never assigns to it, and
every pandas operation used builds a fresh frame), so the translated
state is returned unchanged. -/
def query_data_state (dataframes : List (String × DataFrame))
    (table_name : String) (columns : Option (List String))
    (filters : Option (List (String × FilterVal)))
    (aggregation : Option String) (group_by : Option (List String))
    (limit : Int) : QueryOutput × List (String × DataFrame) :=
  (query_data dataframes table_name columns filters aggregation group_by
    limit, dataframes)

/-- `filterME` with a pointwise-total predicate is a plain filter. -/
theorem filterME_ok_of_total {α : Type} (p : α → Except String Bool)
    (q : α → Bool) :
    ∀ l : List α, (∀ a ∈ l, p a = Except.ok (q a)) →
      filterME p l = Except.ok (l.filter q) := by
  intro l
  induction l with
  | nil => intro _; rfl
  | cons a rest ih =>
    intro h
    have ha := h a (List.mem_cons_self a rest)
    have hr := ih (fun x hx => h x (List.mem_cons_of_mem a hx))
    simp only [filterME, ha, hr, List.filter_cons]
    cases hq : q a <;> simp [hq] <;> rfl

/-- C2 fails as stated: when none of the requested columns exists, the
`if available_cols:` guard skips the projection instead of restricting to
the (empty) set of requested columns that exist. -/
theorem query_data_projection_counterexample :
    query_data [("t", ⟨["a"], [[("a", Value.num 1)]]⟩)] "t" (some ["z"])
        none none none 100
      = QueryOutput.success "t"
          (SerializedResult.records [[("a", Value.num 1)]]) 1 1 ["a"]
    ∧ (["z"].filter (fun c => decide (c ∈ (["a"] : List String)))) = []
    ∧ (["a"] : List String) ≠ [] :=
  ⟨by decide, by decide, by decide⟩

/-- C2 amended: `query_data` applies, in this fixed order, the filter
stage (operator dicts apply `>`, `<`, `>=`, `<=`, `==`, `!=` in sequence;
a plain value keeps exactly the rows equal to it; filters naming absent
columns are ignored), then the projection (restricting to the requested
columns that exist, provided at least one exists, otherwise skipped), and
only then the optional group-by plus aggregation. -/
theorem query_data_stage_order (dataframes : List (String × DataFrame))
    (table_name : String) (columns : Option (List String))
    (filters : Option (List (String × FilterVal)))
    (aggregation : Option String) (group_by : Option (List String))
    (limit : Int) (df : DataFrame)
    (hdf : dGet table_name dataframes = some df) :
    (query_data dataframes table_name columns filters aggregation group_by
        limit
      = match (applyFilters (filters.getD []) df >>= fun df1 =>
          applyAggregation aggregation group_by (selectColumns columns df1))
          with
        | Except.error e => QueryOutput.failure e table_name
        | Except.ok result =>
          QueryOutput.success table_name (serializeResult result limit)
            (rowCountOf result) df.rows.length (columnsOf result))
    ∧ (∀ (df' : DataFrame) (col : String) (fv : FilterVal),
        ¬ col ∈ df'.cols → applyFilterEntry df' (col, fv) = Except.ok df')
    ∧ (∀ (df' : DataFrame) (col : String) (v : Value), col ∈ df'.cols →
        (∀ r ∈ df'.rows, dGet col r ≠ none) →
        applyFilterEntry df' (col, FilterVal.plain v)
          = Except.ok { df' with rows := df'.rows.filter (fun r =>
              match dGet col r with
              | some x => valEqB x v
              | none => false) })
    ∧ (∀ (df' : DataFrame) (cs : List String), ¬ cs.isEmpty →
        ¬ (cs.filter (fun c => decide (c ∈ df'.cols))).isEmpty →
        (selectColumns (some cs) df').cols
          = cs.filter (fun c => decide (c ∈ df'.cols))) := by
  refine ⟨by simp only [query_data, hdf], ?_, ?_, ?_⟩
  · intro df' col fv h
    simp [applyFilterEntry, h]
  · intro df' col v hcol hrows
    have : filterME (fun r => do
        let x ← getCell r col
        Except.ok (valEqB x v)) df'.rows
        = Except.ok (df'.rows.filter (fun r =>
            match dGet col r with
            | some x => valEqB x v
            | none => false)) := by
      apply filterME_ok_of_total
      intro r hr
      cases hg : dGet col r with
      | none => exact absurd hg (hrows r hr)
      | some x => simp only [getCell, hg]; rfl
    simp only [applyFilterEntry, hcol, if_pos, maskFilter, this]
    rfl
  · intro df' cs h1 h2
    simp [selectColumns, h1, h2]

/-- Witness for C2's amended theorem at a concrete input. -/
theorem query_data_stage_order_witness :
    (query_data [("t", ⟨["a"], [[("a", Value.num 1)]]⟩)] "t" (some ["a"])
        (some [("a", FilterVal.plain (Value.num 1))]) none none 100
      = match (applyFilters
            ((some [("a", FilterVal.plain (Value.num 1))]).getD [])
            (⟨["a"], [[("a", Value.num 1)]]⟩ : DataFrame) >>= fun df1 =>
          applyAggregation none none (selectColumns (some ["a"]) df1)) with
        | Except.error e => QueryOutput.failure e "t"
        | Except.ok result =>
          QueryOutput.success "t" (serializeResult result 100)
            (rowCountOf result)
            (⟨["a"], [[("a", Value.num 1)]]⟩ : DataFrame).rows.length
            (columnsOf result))
    ∧ (∀ (df' : DataFrame) (col : String) (fv : FilterVal),
        ¬ col ∈ df'.cols → applyFilterEntry df' (col, fv) = Except.ok df')
    ∧ (∀ (df' : DataFrame) (col : String) (v : Value), col ∈ df'.cols →
        (∀ r ∈ df'.rows, dGet col r ≠ none) →
        applyFilterEntry df' (col, FilterVal.plain v)
          = Except.ok { df' with rows := df'.rows.filter (fun r =>
              match dGet col r with
              | some x => valEqB x v
              | none => false) })
    ∧ (∀ (df' : DataFrame) (cs : List String), ¬ cs.isEmpty →
        ¬ (cs.filter (fun c => decide (c ∈ df'.cols))).isEmpty →
        (selectColumns (some cs) df').cols
          = cs.filter (fun c => decide (c ∈ df'.cols))) :=
  query_data_stage_order [("t", ⟨["a"], [[("a", Value.num 1)]]⟩)] "t"
    (some ["a"]) (some [("a", FilterVal.plain (Value.num 1))]) none none 100
    ⟨["a"], [[("a", Value.num 1)]]⟩ (by decide)

/-- C3 fails as stated: a whole-frame aggregation returns a Series whose
dict bypasses `head(limit)`; with `limit = 0` the result still holds one
record. -/
theorem query_data_limit_counterexample :
    query_data [("t", ⟨["x"], [[("x", Value.num 1)]]⟩)] "t" none none
        (some "count") none 0
      = QueryOutput.success "t"
          (SerializedResult.scalars [("count", Value.num 1)]) 1 1 ["count"]
    ∧ resultSize (SerializedResult.scalars [("count", Value.num 1)]) = 1
    ∧ ¬ (1 ≤ 0) :=
  ⟨by decide, by decide, by decide⟩

/-- C3 amended: for a non-negative `limit` the `result` field of a
successful `query_data` reply holds at most `max(limit, 1)` records:
dataframe results are cut by `head(limit)`, a whole-frame aggregation
Series is a single record regardless of `limit`.  (A negative `limit` is
passed to `head`, which then drops the last `|limit|` rows instead of
bounding the result by `limit`.) -/
theorem query_data_result_bounded (dataframes : List (String × DataFrame))
    (table_name : String) (columns : Option (List String))
    (filters : Option (List (String × FilterVal)))
    (aggregation : Option String) (group_by : Option (List String))
    (limit : Int) (hl : 0 ≤ limit) :
    ∀ t res rc orc cols,
      query_data dataframes table_name columns filters aggregation group_by
          limit
        = QueryOutput.success t res rc orc cols →
      resultSize res ≤ max limit.toNat 1 := by
  intro t res rc orc cols h
  cases hdf : dGet table_name dataframes with
  | none => simp [query_data, hdf] at h
  | some df =>
    simp only [query_data, hdf] at h
    cases hcomp : (applyFilters (filters.getD []) df >>= fun df1 =>
        applyAggregation aggregation group_by (selectColumns columns df1))
        with
    | error e => rw [hcomp] at h; simp at h
    | ok result =>
      rw [hcomp] at h
      simp only [QueryOutput.success.injEq] at h
      obtain ⟨-, hres, -, -, -⟩ := h
      subst hres
      cases result with
      | frame df2 =>
        simp only [serializeResult, resultSize, List.length_map,
          pandasHead, hl, if_pos]
        exact le_trans (by simp [List.length_take])
          (le_max_left limit.toNat 1)
      | series s =>
        simp only [serializeResult, resultSize]
        exact le_max_right limit.toNat 1

/-- Witness for C3's amended theorem at a concrete input. -/
theorem query_data_result_bounded_witness :
    resultSize (SerializedResult.records [[("a", Value.num 1)]])
      ≤ max (100 : Int).toNat 1 :=
  query_data_result_bounded [("t", ⟨["a"], [[("a", Value.num 1)]]⟩)] "t"
    none none none none 100 (by decide) "t"
    (SerializedResult.records [[("a", Value.num 1)]]) 1 1 ["a"] (by decide)

/-- C4: `query_data` never lets an error escape: an unknown table yields
the error dict with the available tables, and with a known table the
reply is either the caught-exception error dict naming the table or the
success dict (with the pre-call row count). -/
theorem query_data_total_spec (dataframes : List (String × DataFrame))
    (table_name : String) (columns : Option (List String))
    (filters : Option (List (String × FilterVal)))
    (aggregation : Option String) (group_by : Option (List String))
    (limit : Int) :
    (dGet table_name dataframes = none →
      query_data dataframes table_name columns filters aggregation group_by
          limit
        = QueryOutput.missingTable ("Table " ++ table_name ++ " not found")
            (dataframes.map (fun p => p.1)))
    ∧ (∀ df, dGet table_name dataframes = some df →
        (∃ e, query_data dataframes table_name columns filters aggregation
            group_by limit = QueryOutput.failure e table_name)
        ∨ ∃ res rc cols, query_data dataframes table_name columns filters
            aggregation group_by limit
          = QueryOutput.success table_name res rc df.rows.length cols) := by
  constructor
  · intro h
    simp [query_data, h]
  · intro df h
    cases hcomp : (applyFilters (filters.getD []) df >>= fun df1 =>
        applyAggregation aggregation group_by (selectColumns columns df1))
        with
    | error e =>
      exact Or.inl ⟨e, by simp only [query_data, h]; rw [hcomp]⟩
    | ok result =>
      exact Or.inr ⟨serializeResult result limit, rowCountOf result,
        columnsOf result, by simp only [query_data, h]; rw [hcomp]⟩

/-- Witness for C4 at concrete inputs (both the missing-table and the
known-table branch). -/
theorem query_data_total_spec_witness :
    (query_data [("t", ⟨["a"], [[("a", Value.num 1)]]⟩)] "missing" none
        none none none 100
      = QueryOutput.missingTable ("Table " ++ "missing" ++ " not found")
          ([("t", (⟨["a"], [[("a", Value.num 1)]]⟩ : DataFrame))].map
            (fun p => p.1)))
    ∧ ((∃ e, query_data [("t", ⟨["a"], [[("a", Value.num 1)]]⟩)] "t" none
          none none none 100 = QueryOutput.failure e "t")
        ∨ ∃ res rc cols, query_data [("t", ⟨["a"], [[("a", Value.num 1)]]⟩)]
            "t" none none none none 100
          = QueryOutput.success "t" res rc
              (⟨["a"], [[("a", Value.num 1)]]⟩ : DataFrame).rows.length
              cols) :=
  ⟨(query_data_total_spec [("t", ⟨["a"], [[("a", Value.num 1)]]⟩)]
      "missing" none none none none 100).1 (by decide),
   (query_data_total_spec [("t", ⟨["a"], [[("a", Value.num 1)]]⟩)] "t"
      none none none none 100).2 ⟨["a"], [[("a", Value.num 1)]]⟩
      (by decide)⟩

/-- C10: the loader's stored dataframes are unchanged by a call (the
method never assigns to `self.data_loader.dataframes` and every pandas
operation used builds fresh frames), and a successful reply's
`original_row_count` is the stored table's pre-call row count. -/
theorem query_data_no_mutation (dataframes : List (String × DataFrame))
    (table_name : String) (columns : Option (List String))
    (filters : Option (List (String × FilterVal)))
    (aggregation : Option String) (group_by : Option (List String))
    (limit : Int) :
    (query_data_state dataframes table_name columns filters aggregation
        group_by limit).2 = dataframes
    ∧ ∀ df, dGet table_name dataframes = some df →
        ∀ t res rc orc cols,
          (query_data_state dataframes table_name columns filters
              aggregation group_by limit).1
            = QueryOutput.success t res rc orc cols →
          orc = df.rows.length := by
  refine ⟨rfl, ?_⟩
  intro df hdf t res rc orc cols h
  simp only [query_data_state, query_data, hdf] at h
  cases hcomp : (applyFilters (filters.getD []) df >>= fun df1 =>
      applyAggregation aggregation group_by (selectColumns columns df1))
      with
  | error e => rw [hcomp] at h; simp at h
  | ok result =>
    rw [hcomp] at h
    simp only [QueryOutput.success.injEq] at h
    exact h.2.2.2.1.symm

/-- Witness for C10 at a concrete input. -/
theorem query_data_no_mutation_witness :
    ((query_data_state [("t", ⟨["a"], [[("a", Value.num 1)]]⟩)] "t" none
        none none none 100).2 = [("t", ⟨["a"], [[("a", Value.num 1)]]⟩)])
    ∧ (1 : Nat)
        = (⟨["a"], [[("a", Value.num 1)]]⟩ : DataFrame).rows.length :=
  ⟨(query_data_no_mutation [("t", ⟨["a"], [[("a", Value.num 1)]]⟩)] "t"
      none none none none 100).1,
   (query_data_no_mutation [("t", ⟨["a"], [[("a", Value.num 1)]]⟩)] "t"
      none none none none 100).2 ⟨["a"], [[("a", Value.num 1)]]⟩
      (by decide) "t" (SerializedResult.records [[("a", Value.num 1)]])
      1 1 ["a"] (by decide)⟩

/-- Witness for C1's amended theorem at a concrete input. -/
theorem sliding_window_spec_witness :
    ∃ r, Course.sliding_window ['a', 'b', 'c'] 2 1 = Except.ok r
      ∧ (∀ k, k < r.length →
          r[k]? = some ⟨k * (1 : Int).toNat,
            ((['a', 'b', 'c'].drop (k * (1 : Int).toNat)).take
              (2 : Int).toNat)⟩)
      ∧ ((['a', 'b', 'c'] : List Char) = [] → r = [])
      ∧ r.length = min ((['a', 'b', 'c'].length + (1 : Int).toNat - 1)
            / (1 : Int).toNat)
          ((['a', 'b', 'c'].length - (2 : Int).toNat + (1 : Int).toNat - 1)
            / (1 : Int).toNat + 1) :=
  sliding_window_spec ['a', 'b', 'c'] 2 1 (by decide) (by decide)

end Aihero
